import Mathlib

/-!
Verification development for a Streamlit front-end (src/app.py) that submits,
monitors and cancels OpenAI fine-tuning jobs.  The remote provider is modelled
as a record of fallible request functions (a stand-in for the OpenAI client);
the three module-level wrappers and the three button handlers from app.py are
embedded as pure functions that additionally return the trace of remote calls
they issue, the resulting filesystem for the transient training file, and the
in-memory session job history.
-/

/-- A remote file object, as returned by the files endpoint of the provider. -/
structure FileObject where
  id : String
deriving DecidableEq, Repr

/-- A remote fine-tuning job object, as returned by the provider.  The
fine-tuned-model name is optional: the Python attribute is None until training
completes, which we embed as an Option. -/
structure FineTuningJob where
  id : String
  status : String
  model : String
  fine_tuned_model : Option String
  created_at : Nat
deriving DecidableEq, Repr

/-- A JSON-like scalar value, enough to embed the dictionaries that app.py
builds for st.json and for the session job history. -/
inductive JValue where
  | str : String → JValue
  | num : Nat → JValue
deriving DecidableEq, Repr

/-- One remote API call, with the arguments app.py passes to it.  Recording
these in a trace lets us state how many calls each operation issues and with
which arguments. -/
inductive ApiCall where
  | filesCreate : List Nat → String → ApiCall
  | jobsCreate : String → String → ApiCall
  | jobsRetrieve : String → ApiCall
  | jobsCancel : String → ApiCall
deriving DecidableEq, Repr

/-- The provider behind the OpenAI client handle: each endpoint either returns
a response object or raises, embedded as an Except.  A concrete instance plays
the role of the stand-in service of the testable properties. -/
structure Provider where
  filesCreate : List Nat → String → Except String FileObject
  jobsCreate : String → String → Except String FineTuningJob
  jobsRetrieve : String → Except String FineTuningJob
  jobsCancel : String → Except String FineTuningJob

/-- The local filesystem, mapping a path to the bytes stored there (none when
no file exists at that path). -/
abbrev FS : Type := String → Option (List Nat)

/-- Write bytes to a path (tempfile.NamedTemporaryFile followed by write). -/
def fsWrite (fs : FS) (p : String) (b : List Nat) : FS :=
  fun q => if q = p then some b else fs q

/-- Delete a path (os.unlink guarded by os.path.exists). -/
def fsRemove (fs : FS) (p : String) : FS :=
  fun q => if q = p then none else fs q

/-- True exactly when an Except value carries a success. -/
def exceptOk {α : Type} : Except String α → Bool
  | Except.ok _ => true
  | Except.error _ => false

/-- Embedding of create_fine_tuning_job from app.py: open the training file,
upload it with purpose "fine-tune", then create a job whose training_file is
the id returned by the upload and whose model is model_name.  Returns the
trace of remote calls issued together with the result (the pair of the
uploaded file object and the job object, or the first failure raised). -/
def create_fine_tuning_job (client : Provider) (fs : FS) (file_path : String)
    (model_name : String) : List ApiCall × Except String (FileObject × FineTuningJob) :=
  match fs file_path with
  | none => ([], Except.error "could not open training file")
  | some bytes =>
    match client.filesCreate bytes "fine-tune" with
    | Except.error e => ([ApiCall.filesCreate bytes "fine-tune"], Except.error e)
    | Except.ok uploaded_file =>
      match client.jobsCreate uploaded_file.id model_name with
      | Except.error e =>
          ([ApiCall.filesCreate bytes "fine-tune",
            ApiCall.jobsCreate uploaded_file.id model_name], Except.error e)
      | Except.ok job =>
          ([ApiCall.filesCreate bytes "fine-tune",
            ApiCall.jobsCreate uploaded_file.id model_name],
           Except.ok (uploaded_file, job))

/-- Embedding of retrieve_fine_tuning_job from app.py: a single read-only
remote fetch of the job. -/
def retrieve_fine_tuning_job (client : Provider) (job_id : String) :
    List ApiCall × Except String FineTuningJob :=
  ([ApiCall.jobsRetrieve job_id], client.jobsRetrieve job_id)

/-- Embedding of cancel_fine_tuning_job from app.py: a single remote
cancellation request. -/
def cancel_fine_tuning_job (client : Provider) (job_id : String) :
    List ApiCall × Except String FineTuningJob :=
  ([ApiCall.jobsCancel job_id], client.jobsCancel job_id)

/-- The dictionary appended to st.session_state.jobs for a created job, with
exactly the four keys app.py writes. -/
def session_job_record (job : FineTuningJob) : List (String × JValue) :=
  [("job_id", JValue.str job.id), ("status", JValue.str job.status),
   ("model", JValue.str job.model), ("created_at", JValue.num job.created_at)]

/-- What a button handler paints on the page: either a success JSON dictionary
or a single st.error message. -/
inductive Rendered where
  | success : List (String × JValue) → Rendered
  | failure : String → Rendered
deriving DecidableEq, Repr

/-- The result of the Start Fine-Tuning button handler: the remote calls
issued, the filesystem after the handler (including its finally-block
cleanup), the session job history after the handler, and the outcome the
outer try/except observed. -/
structure SubmitOutcome where
  trace : List ApiCall
  fs : FS
  jobs : List (List (String × JValue))
  result : Except String (FileObject × FineTuningJob)

/-- Embedding of the Start Fine-Tuning button handler of app.py: write the
uploaded bytes to a transient file, run create_fine_tuning_job on it, append
the four-field record to the session history on success, and in the
finally block delete the transient file whether or not the call raised; the
outer try/except turns any failure into a single error message. -/
def start_fine_tuning_handler (client : Provider) (fs0 : FS)
    (jobs0 : List (List (String × JValue))) (uploaded_bytes : List Nat)
    (selected : String) (tmp_file_path : String) : SubmitOutcome :=
  let fs1 := fsWrite fs0 tmp_file_path uploaded_bytes
  let r := create_fine_tuning_job client fs1 tmp_file_path selected
  let jobs1 :=
    match r.2 with
    | Except.ok (_, job) => jobs0 ++ [session_job_record job]
    | Except.error _ => jobs0
  { trace := r.1, fs := fsRemove fs1 tmp_file_path, jobs := jobs1, result := r.2 }

/-- What the Start Fine-Tuning handler displays: the success JSON with job_id,
status, model and file_id, or the single error message of the except branch. -/
def submit_rendered : Except String (FileObject × FineTuningJob) → Rendered
  | Except.error e => Rendered.failure ("Error creating fine-tuning job: " ++ e)
  | Except.ok (f, job) =>
      Rendered.success
        [("job_id", JValue.str job.id), ("status", JValue.str job.status),
         ("model", JValue.str job.model), ("file_id", JValue.str f.id)]

/-- Embedding of the Python expression
job.fine_tuned_model if job.fine_tuned_model else "Not available yet": both
None and the empty string are falsy in Python, so both take the else branch. -/
def fine_tuned_model_display : Option String → String
  | none => "Not available yet"
  | some s => if s = "" then "Not available yet" else s

/-- Embedding of the Check Job Status button handler of app.py: one retrieve
call; on success a JSON dictionary with the four displayed fields, on failure
a single error message. -/
def check_job_status_handler (client : Provider) (job_id : String) :
    List ApiCall × Rendered :=
  match retrieve_fine_tuning_job client job_id with
  | (calls, Except.error e) =>
      (calls, Rendered.failure ("Error retrieving job status: " ++ e))
  | (calls, Except.ok job) =>
      (calls, Rendered.success
        [("job_id", JValue.str job.id), ("status", JValue.str job.status),
         ("model", JValue.str job.model),
         ("fine_tuned_model", JValue.str (fine_tuned_model_display job.fine_tuned_model))])

/-- Embedding of the Cancel Job button handler of app.py: one cancel call; the
session job history is passed through untouched; on failure a single error
message. -/
def cancel_job_handler (client : Provider) (jobs : List (List (String × JValue)))
    (job_id : String) : List ApiCall × List (List (String × JValue)) × Rendered :=
  match cancel_fine_tuning_job client job_id with
  | (calls, Except.error e) =>
      (calls, jobs, Rendered.failure ("Error cancelling job: " ++ e))
  | (calls, Except.ok job) =>
      (calls, jobs, Rendered.success
        [("job_id", JValue.str job.id), ("status", JValue.str job.status)])

/-- Embedding of the client initialization of app.py: client starts as None;
only a non-empty api key leads to a construction attempt, and a construction
failure is caught, leaving the client None. -/
def clientInit (construct : String → Except String Provider) (api_key : String) :
    Option Provider :=
  if api_key = "" then none
  else
    match construct api_key with
    | Except.ok c => some c
    | Except.error _ => none

/-- The disabled flag of the Start Fine-Tuning button:
client is None or uploaded_file is None. -/
def start_button_disabled (client : Option Provider) (uploaded : Option (List Nat)) : Bool :=
  client.isNone || uploaded.isNone

/-- The disabled flag of the Check Job Status button:
client is None or not job_id. -/
def check_status_button_disabled (client : Option Provider) (job_id : String) : Bool :=
  client.isNone || job_id = ""

/-- The disabled flag of the Cancel Job button:
client is None or not job_id. -/
def cancel_button_disabled (client : Option Provider) (job_id : String) : Bool :=
  client.isNone || job_id = ""

/-- The fixed allow-list of base models offered by the selectbox in app.py. -/
def available_models : List String :=
  ["gpt-4.1-2025-04-14",
   "gpt-4.1-mini-2025-04-14",
   "gpt-4o-2024-08-06",
   "gpt-4o-mini-2024-07-18",
   "gpt-3.5-turbo-0125",
   "gpt-3.5-turbo-1106",
   "gpt-3.5-turbo-0613"]

/-- The model the selectbox returns: one of the options, chosen by index. -/
def selected_model (i : Fin available_models.length) : String :=
  available_models.get i

/-- Split a character sequence at every newline character, keeping empty
pieces, exactly as the Python str.split method does with an explicit
single-character separator. -/
def splitNewlines : List Char → List (List Char)
  | [] => [[]]
  | c :: rest =>
    if c = '\n' then [] :: splitNewlines rest
    else
      match splitNewlines rest with
      | [] => [[c]]
      | l :: ls => (c :: l) :: ls

/-- The list of lines of the preview: the file content split on newline. -/
def preview_all_lines (contents : String) : List String :=
  (splitNewlines contents.data).map List.asString

/-- The lines the preview displays with st.code: lines[:5]. -/
def preview_lines (contents : String) : List String :=
  (preview_all_lines contents).take 5

/-- The optional st.info message of the preview, shown when len(lines) > 5. -/
def preview_info (contents : String) : Option String :=
  if 5 < (preview_all_lines contents).length then
    some ("... and " ++ toString ((preview_all_lines contents).length - 5) ++ " more lines")
  else none

/-- One user action in a session: pressing one of the three buttons with the
given inputs. -/
inductive SessionOp where
  | submit : List Nat → String → String → SessionOp
  | checkStatus : String → SessionOp
  | cancel : String → SessionOp
deriving DecidableEq, Repr

/-- True exactly for a Check Job Status action. -/
def isCheckStatus : SessionOp → Bool
  | SessionOp.checkStatus _ => true
  | _ => false

/-- The session: the filesystem, the st.session_state.jobs history, and the
log of what the handlers displayed. -/
structure SessionState where
  fs : FS
  jobs : List (List (String × JValue))
  displayed : List Rendered

/-- One step of the session: dispatch a user action to its handler and thread
the filesystem, history and display log through it. -/
def sessionStep (p : Provider) (s : SessionState) : SessionOp → SessionState
  | SessionOp.submit bytes model tmpPath =>
      let r := start_fine_tuning_handler p s.fs s.jobs bytes model tmpPath
      { fs := r.fs, jobs := r.jobs,
        displayed := s.displayed ++ [submit_rendered r.result] }
  | SessionOp.checkStatus jid =>
      { s with displayed := s.displayed ++ [(check_job_status_handler p jid).2] }
  | SessionOp.cancel jid =>
      let r := cancel_job_handler p s.jobs jid
      { fs := s.fs, jobs := r.2.1, displayed := s.displayed ++ [r.2.2] }

/-- Run a sequence of user actions from a session state. -/
def runSession (p : Provider) (s : SessionState) (ops : List SessionOp) : SessionState :=
  ops.foldl (sessionStep p) s

/-- Whether a submit action would succeed against the provider.  Success does
not depend on the filesystem: the handler writes the bytes to the transient
path before the upload reads them back. -/
def submitSucceeds (p : Provider) : SessionOp → Bool
  | SessionOp.submit bytes model _ =>
      match p.filesCreate bytes "fine-tune" with
      | Except.ok f => exceptOk (p.jobsCreate f.id model)
      | Except.error _ => false
  | _ => false

/-- The history record a successful submit action appends, computed from the
provider alone. -/
def submittedEntry (p : Provider) : SessionOp → List (String × JValue)
  | SessionOp.submit bytes model _ =>
      match p.filesCreate bytes "fine-tune" with
      | Except.ok f =>
          match p.jobsCreate f.id model with
          | Except.ok job => session_job_record job
          | Except.error _ => []
      | Except.error _ => []
  | _ => []

/-- A concrete stand-in provider, used to witness the theorems on concrete
inputs: uploads succeed with id "file-123", job creation echoes a job
"ftjob-1" in status "validating_files", retrieval knows only "ftjob-1", and
cancellation rejects every id with "not found". -/
def standInProvider : Provider where
  filesCreate := fun _ _ => Except.ok { id := "file-123" }
  jobsCreate := fun _ m =>
    Except.ok { id := "ftjob-1", status := "validating_files", model := m,
                fine_tuned_model := none, created_at := 1720000000 }
  jobsRetrieve := fun jid =>
    if jid = "ftjob-1" then
      Except.ok { id := "ftjob-1", status := "succeeded",
                  model := "gpt-4o-mini-2024-07-18",
                  fine_tuned_model := some "ft:gpt-4o-mini:custom",
                  created_at := 1720000000 }
    else Except.error "not found"
  jobsCancel := fun _ => Except.error "not found"

/-- The empty filesystem, for concrete witnesses. -/
def emptyFS : FS := fun _ => none

/-- C1: for every valid input (credential, training-file bytes, model name),
the submit operation issues exactly one file-upload call tagged for
fine-tuning use, followed by exactly one job-creation call whose
training-file argument is the identifier returned by that upload and whose
model argument is the chosen base model, in that order. -/
theorem submit_issues_upload_then_job_create (p : Provider) (fs0 : FS)
    (jobs0 : List (List (String × JValue))) (bytes : List Nat)
    (model tmp : String) (f : FileObject)
    (h : p.filesCreate bytes "fine-tune" = Except.ok f) :
    (start_fine_tuning_handler p fs0 jobs0 bytes model tmp).trace =
      [ApiCall.filesCreate bytes "fine-tune", ApiCall.jobsCreate f.id model] := by
  have hfs : fsWrite fs0 tmp bytes tmp = some bytes := by simp [fsWrite]
  unfold start_fine_tuning_handler
  simp only [create_fine_tuning_job, hfs, h]
  cases p.jobsCreate f.id model <;> rfl

/-- Witness for submit_issues_upload_then_job_create at a concrete input. -/
theorem submit_issues_upload_then_job_create_witness :
    (start_fine_tuning_handler standInProvider emptyFS [] [123, 10]
      "gpt-4o-mini-2024-07-18" "/tmp/train.jsonl").trace =
      [ApiCall.filesCreate [123, 10] "fine-tune",
       ApiCall.jobsCreate "file-123" "gpt-4o-mini-2024-07-18"] :=
  submit_issues_upload_then_job_create standInProvider emptyFS [] [123, 10]
    "gpt-4o-mini-2024-07-18" "/tmp/train.jsonl" { id := "file-123" } rfl

/-- C2: for every execution of the submit handler that reaches creation of
the transient local file, the transient file no longer exists after the
handler completes, on the success path and on every failure path. -/
theorem transient_file_deleted (p : Provider) (fs0 : FS)
    (jobs0 : List (List (String × JValue))) (bytes : List Nat)
    (model tmp : String) :
    (start_fine_tuning_handler p fs0 jobs0 bytes model tmp).fs tmp = none := by
  unfold start_fine_tuning_handler fsRemove
  simp

/-- C3 counterexample: the status display maps an absent fine-tuned-model
name and a present-but-empty one to the same string, so absent is not
represented distinctly from present-but-empty. -/
theorem absent_equals_empty_display :
    fine_tuned_model_display none = fine_tuned_model_display (some "") := rfl

/-- C3 amended: the status display renders an absent fine-tuned-model name as
the fixed sentinel "Not available yet", never as an empty string, and renders
every present non-empty name as itself; a present-but-empty name however is
coerced to the same sentinel as the absent case. -/
theorem absent_model_display_amended :
    fine_tuned_model_display none = "Not available yet" ∧
    fine_tuned_model_display none ≠ "" ∧
    (∀ s : String, fine_tuned_model_display (some s) =
      if s = "" then fine_tuned_model_display none else s) := by
  refine ⟨rfl, by decide, ?_⟩
  intro s
  by_cases h : s = "" <;> simp [fine_tuned_model_display, h]

/-- C5: a missing (empty) or invalid (construction-failing) credential leaves
the client unconstructed, and while no client is constructed the three
operation buttons are all disabled. -/
theorem missing_or_invalid_credential_disables
    (construct : String → Except String Provider) (key e : String)
    (u : Option (List Nat)) (jid : String)
    (h : key = "" ∨ construct key = Except.error e) :
    clientInit construct key = none ∧
    start_button_disabled (clientInit construct key) u = true ∧
    check_status_button_disabled (clientInit construct key) jid = true ∧
    cancel_button_disabled (clientInit construct key) jid = true := by
  have hc : clientInit construct key = none := by
    rcases h with h | h
    · simp [clientInit, h]
    · unfold clientInit
      by_cases hk : key = "" <;> simp [hk, h]
  exact ⟨hc, by simp [start_button_disabled, hc],
    by simp [check_status_button_disabled, hc],
    by simp [cancel_button_disabled, hc]⟩

/-- Witness for missing_or_invalid_credential_disables at a concrete input. -/
theorem missing_or_invalid_credential_disables_witness :
    clientInit (fun _ => Except.error "invalid key") "" = none ∧
    start_button_disabled (clientInit (fun _ => Except.error "invalid key") "") none = true ∧
    check_status_button_disabled (clientInit (fun _ => Except.error "invalid key") "") "" = true ∧
    cancel_button_disabled (clientInit (fun _ => Except.error "invalid key") "") "" = true :=
  missing_or_invalid_credential_disables (fun _ => Except.error "invalid key")
    "" "invalid key" none "" (Or.inl rfl)

/-- C9: the preview displays at most the first 5 lines of the file content
split on newline, and exactly when the file has more than 5 lines it reports
the exact count of remaining lines. -/
theorem preview_shows_first_five_lines (contents : String) :
    (preview_lines contents).length ≤ 5 ∧
    preview_lines contents = (preview_all_lines contents).take 5 ∧
    (5 < (preview_all_lines contents).length →
      preview_info contents =
        some ("... and " ++ toString ((preview_all_lines contents).length - 5)
          ++ " more lines")) ∧
    ((preview_all_lines contents).length ≤ 5 → preview_info contents = none) := by
  refine ⟨?_, rfl, ?_, ?_⟩
  · simp [preview_lines, List.length_take]
  · intro h
    unfold preview_info
    rw [if_pos h]
  · intro h
    unfold preview_info
    rw [if_neg (by omega)]

/-- Witness for preview_shows_first_five_lines at a concrete seven-line file. -/
theorem preview_shows_first_five_lines_witness :
    (preview_lines "a\nb\nc\nd\ne\nf\ng").length ≤ 5 ∧
    preview_info "a\nb\nc\nd\ne\nf\ng" = some "... and 2 more lines" := by
  have h := preview_shows_first_five_lines "a\nb\nc\nd\ne\nf\ng"
  exact ⟨h.1, (h.2.2.1 (by decide)).trans (by decide)⟩

/-- C6: for a jobId the provider rejects, the cancel handler issues its single
call, surfaces a single failure message, and leaves the session job history
unchanged. -/
theorem cancel_rejected_leaves_history (p : Provider)
    (jobs : List (List (String × JValue))) (jid e : String)
    (h : p.jobsCancel jid = Except.error e) :
    (cancel_job_handler p jobs jid).2.1 = jobs ∧
    (cancel_job_handler p jobs jid).2.2 =
      Rendered.failure ("Error cancelling job: " ++ e) ∧
    (cancel_job_handler p jobs jid).1 = [ApiCall.jobsCancel jid] := by
  unfold cancel_job_handler cancel_fine_tuning_job
  simp [h]

/-- Witness for cancel_rejected_leaves_history: the stand-in provider rejects
"ftjob-missing" with "not found". -/
theorem cancel_rejected_leaves_history_witness :
    (cancel_job_handler standInProvider [] "ftjob-missing").2.1 = [] ∧
    (cancel_job_handler standInProvider [] "ftjob-missing").2.2 =
      Rendered.failure ("Error cancelling job: " ++ "not found") ∧
    (cancel_job_handler standInProvider [] "ftjob-missing").1 =
      [ApiCall.jobsCancel "ftjob-missing"] :=
  cancel_rejected_leaves_history standInProvider [] "ftjob-missing" "not found" rfl

/-- C7: the model passed to the job-creation call of a submit is the selectbox
choice, a member of the fixed allow-list of seven base-model identifiers, and
every job-creation call in the submit trace carries a model from that list. -/
theorem job_create_model_from_allow_list (p : Provider) (fs0 : FS)
    (jobs0 : List (List (String × JValue))) (bytes : List Nat)
    (tmp : String) (i : Fin available_models.length) :
    selected_model i ∈ available_models ∧
    ((start_fine_tuning_handler p fs0 jobs0 bytes (selected_model i) tmp).trace.all
      (fun c => match c with
        | ApiCall.jobsCreate _ m => available_models.contains m
        | _ => true)) = true := by
  have hm : selected_model i ∈ available_models := by
    revert i; decide
  refine ⟨hm, ?_⟩
  have hfs : fsWrite fs0 tmp bytes tmp = some bytes := by simp [fsWrite]
  unfold start_fine_tuning_handler
  simp only [create_fine_tuning_job, hfs]
  cases hf : p.filesCreate bytes "fine-tune" with
  | error e => simp
  | ok f =>
    cases hj : p.jobsCreate f.id (selected_model i) with
    | error e => simp [hj, hm]
    | ok job => simp [hj, hm]

/-- C8: for a jobId rejected by the provider, the status handler and the
cancel handler each issue exactly one remote call, return a single
descriptive failure rendering, and never let the failure escape unhandled. -/
theorem rejected_job_id_single_failure (p : Provider)
    (jobs : List (List (String × JValue))) (jid e1 e2 : String)
    (h1 : p.jobsRetrieve jid = Except.error e1)
    (h2 : p.jobsCancel jid = Except.error e2) :
    check_job_status_handler p jid =
      ([ApiCall.jobsRetrieve jid],
       Rendered.failure ("Error retrieving job status: " ++ e1)) ∧
    cancel_job_handler p jobs jid =
      ([ApiCall.jobsCancel jid], jobs,
       Rendered.failure ("Error cancelling job: " ++ e2)) := by
  constructor
  · unfold check_job_status_handler retrieve_fine_tuning_job
    simp [h1]
  · unfold cancel_job_handler cancel_fine_tuning_job
    simp [h2]

/-- Witness for rejected_job_id_single_failure: the stand-in provider rejects
"ftjob-missing" on both endpoints. -/
theorem rejected_job_id_single_failure_witness :
    check_job_status_handler standInProvider "ftjob-missing" =
      ([ApiCall.jobsRetrieve "ftjob-missing"],
       Rendered.failure ("Error retrieving job status: " ++ "not found")) ∧
    cancel_job_handler standInProvider [] "ftjob-missing" =
      ([ApiCall.jobsCancel "ftjob-missing"], [],
       Rendered.failure ("Error cancelling job: " ++ "not found")) :=
  rejected_job_id_single_failure standInProvider [] "ftjob-missing"
    "not found" "not found" rfl rfl

/-- The session history after the submit handler is determined by the
handler's result: the four-field record is appended on success, nothing on
failure. -/
theorem handler_jobs_eq (p : Provider) (fs0 : FS)
    (jobs0 : List (List (String × JValue))) (bytes : List Nat)
    (model tmp : String) :
    (start_fine_tuning_handler p fs0 jobs0 bytes model tmp).jobs =
      (match (start_fine_tuning_handler p fs0 jobs0 bytes model tmp).result with
       | Except.ok (_, job) => jobs0 ++ [session_job_record job]
       | Except.error _ => jobs0) := rfl

/-- C10: a successful submit appends to the session history exactly one
record with exactly the four keys job_id, status, model and created_at,
each copied from the returned job object, and no fine_tuned_model key. -/
theorem history_record_four_fields (p : Provider) (fs0 : FS)
    (jobs0 : List (List (String × JValue))) (bytes : List Nat)
    (model tmp : String) (f : FileObject) (job : FineTuningJob)
    (h : (start_fine_tuning_handler p fs0 jobs0 bytes model tmp).result =
      Except.ok (f, job)) :
    (start_fine_tuning_handler p fs0 jobs0 bytes model tmp).jobs =
      jobs0 ++ [session_job_record job] ∧
    (session_job_record job).map Prod.fst =
      ["job_id", "status", "model", "created_at"] ∧
    (session_job_record job).lookup "job_id" = some (JValue.str job.id) ∧
    (session_job_record job).lookup "status" = some (JValue.str job.status) ∧
    (session_job_record job).lookup "model" = some (JValue.str job.model) ∧
    (session_job_record job).lookup "created_at" = some (JValue.num job.created_at) ∧
    (session_job_record job).lookup "fine_tuned_model" = none := by
  refine ⟨?_, rfl, rfl, rfl, rfl, rfl, rfl⟩
  rw [handler_jobs_eq, h]

/-- Witness for history_record_four_fields at a concrete submit against the
stand-in provider. -/
theorem history_record_four_fields_witness :
    (start_fine_tuning_handler standInProvider emptyFS [] [123]
        "gpt-4o-mini-2024-07-18" "/tmp/train.jsonl").jobs =
      [] ++ [session_job_record
        { id := "ftjob-1", status := "validating_files",
          model := "gpt-4o-mini-2024-07-18", fine_tuned_model := none,
          created_at := 1720000000 }] ∧
    (session_job_record
        { id := "ftjob-1", status := "validating_files",
          model := "gpt-4o-mini-2024-07-18", fine_tuned_model := none,
          created_at := 1720000000 }).map Prod.fst =
      ["job_id", "status", "model", "created_at"] ∧
    (session_job_record
        { id := "ftjob-1", status := "validating_files",
          model := "gpt-4o-mini-2024-07-18", fine_tuned_model := none,
          created_at := 1720000000 }).lookup "job_id" = some (JValue.str "ftjob-1") ∧
    (session_job_record
        { id := "ftjob-1", status := "validating_files",
          model := "gpt-4o-mini-2024-07-18", fine_tuned_model := none,
          created_at := 1720000000 }).lookup "status" = some (JValue.str "validating_files") ∧
    (session_job_record
        { id := "ftjob-1", status := "validating_files",
          model := "gpt-4o-mini-2024-07-18", fine_tuned_model := none,
          created_at := 1720000000 }).lookup "model" = some (JValue.str "gpt-4o-mini-2024-07-18") ∧
    (session_job_record
        { id := "ftjob-1", status := "validating_files",
          model := "gpt-4o-mini-2024-07-18", fine_tuned_model := none,
          created_at := 1720000000 }).lookup "created_at" = some (JValue.num 1720000000) ∧
    (session_job_record
        { id := "ftjob-1", status := "validating_files",
          model := "gpt-4o-mini-2024-07-18", fine_tuned_model := none,
          created_at := 1720000000 }).lookup "fine_tuned_model" = none :=
  history_record_four_fields standInProvider emptyFS [] [123]
    "gpt-4o-mini-2024-07-18" "/tmp/train.jsonl" { id := "file-123" }
    { id := "ftjob-1", status := "validating_files",
      model := "gpt-4o-mini-2024-07-18", fine_tuned_model := none,
      created_at := 1720000000 } rfl

/-- A submit action whose remote calls succeed appends exactly its history
record to the session history. -/
theorem submit_step_appends (p : Provider) (s : SessionState)
    (bytes : List Nat) (model tmp : String)
    (h : submitSucceeds p (SessionOp.submit bytes model tmp) = true) :
    (sessionStep p s (SessionOp.submit bytes model tmp)).jobs =
      s.jobs ++ [submittedEntry p (SessionOp.submit bytes model tmp)] := by
  have hfs : fsWrite s.fs tmp bytes tmp = some bytes := by simp [fsWrite]
  unfold sessionStep start_fine_tuning_handler
  simp only [create_fine_tuning_job, hfs]
  cases hf : p.filesCreate bytes "fine-tune" with
  | error e => simp [submitSucceeds, hf] at h
  | ok f =>
    cases hj : p.jobsCreate f.id model with
    | error e => simp [submitSucceeds, hf, hj, exceptOk] at h
    | ok job => simp [submittedEntry, hf, hj]

/-- Running a sequence of succeeding submit actions appends their history
records in call order. -/
theorem runSession_all_submits (p : Provider) (ops : List SessionOp) :
    ∀ s : SessionState, (∀ op ∈ ops, submitSucceeds p op = true) →
      (runSession p s ops).jobs = s.jobs ++ ops.map (submittedEntry p) := by
  induction ops with
  | nil => intro s _; simp [runSession]
  | cons a l ih =>
    intro s h
    have ha : submitSucceeds p a = true := h a (by simp)
    have hl : ∀ op ∈ l, submitSucceeds p op = true :=
      fun op hop => h op (by simp [hop])
    cases a with
    | submit bytes model tmp =>
        have hstep := submit_step_appends p s bytes model tmp ha
        have hrun : runSession p s (SessionOp.submit bytes model tmp :: l) =
            runSession p (sessionStep p s (SessionOp.submit bytes model tmp)) l := rfl
        rw [hrun, ih _ hl, hstep]
        simp
    | checkStatus jid => simp [submitSucceeds] at ha
    | cancel jid => simp [submitSucceeds] at ha

/-- Running only status-check actions leaves the session history untouched. -/
theorem runSession_status_only_preserves_jobs (p : Provider)
    (later : List SessionOp) :
    ∀ s : SessionState, (∀ op ∈ later, isCheckStatus op = true) →
      (runSession p s later).jobs = s.jobs := by
  induction later with
  | nil => intro s _; rfl
  | cons a l ih =>
    intro s h
    have ha : isCheckStatus a = true := h a (by simp)
    have hl : ∀ op ∈ l, isCheckStatus op = true :=
      fun op hop => h op (by simp [hop])
    cases a with
    | checkStatus jid =>
        have hrun : runSession p s (SessionOp.checkStatus jid :: l) =
            runSession p (sessionStep p s (SessionOp.checkStatus jid)) l := rfl
        rw [hrun, ih _ hl]
        rfl
    | submit b m t => simp [isCheckStatus] at ha
    | cancel jid => simp [isCheckStatus] at ha

/-- C4: after N successful submit actions in one session starting from an
empty history, the history holds exactly N records in call order, and later
status checks leave it unchanged. -/
theorem history_accumulates_in_order (p : Provider) (fs0 : FS)
    (ops later : List SessionOp)
    (h1 : ∀ op ∈ ops, submitSucceeds p op = true)
    (h2 : ∀ op ∈ later, isCheckStatus op = true) :
    (runSession p ⟨fs0, [], []⟩ ops).jobs = ops.map (submittedEntry p) ∧
    (runSession p ⟨fs0, [], []⟩ ops).jobs.length = ops.length ∧
    (runSession p (runSession p ⟨fs0, [], []⟩ ops) later).jobs =
      (runSession p ⟨fs0, [], []⟩ ops).jobs := by
  have hj := runSession_all_submits p ops ⟨fs0, [], []⟩ h1
  simp only [List.nil_append] at hj
  refine ⟨hj, ?_, runSession_status_only_preserves_jobs p later _ h2⟩
  rw [hj]
  simp

/-- Witness for history_accumulates_in_order: two succeeding submits followed
by one status check against the stand-in provider. -/
theorem history_accumulates_in_order_witness :
    (runSession standInProvider ⟨emptyFS, [], []⟩
        [SessionOp.submit [1] "gpt-4o-mini-2024-07-18" "/tmp/a",
         SessionOp.submit [2] "gpt-3.5-turbo-0125" "/tmp/b"]).jobs =
      [SessionOp.submit [1] "gpt-4o-mini-2024-07-18" "/tmp/a",
       SessionOp.submit [2] "gpt-3.5-turbo-0125" "/tmp/b"].map
        (submittedEntry standInProvider) ∧
    (runSession standInProvider ⟨emptyFS, [], []⟩
        [SessionOp.submit [1] "gpt-4o-mini-2024-07-18" "/tmp/a",
         SessionOp.submit [2] "gpt-3.5-turbo-0125" "/tmp/b"]).jobs.length =
      [SessionOp.submit [1] "gpt-4o-mini-2024-07-18" "/tmp/a",
       SessionOp.submit [2] "gpt-3.5-turbo-0125" "/tmp/b"].length ∧
    (runSession standInProvider
        (runSession standInProvider ⟨emptyFS, [], []⟩
          [SessionOp.submit [1] "gpt-4o-mini-2024-07-18" "/tmp/a",
           SessionOp.submit [2] "gpt-3.5-turbo-0125" "/tmp/b"])
        [SessionOp.checkStatus "ftjob-1"]).jobs =
      (runSession standInProvider ⟨emptyFS, [], []⟩
        [SessionOp.submit [1] "gpt-4o-mini-2024-07-18" "/tmp/a",
         SessionOp.submit [2] "gpt-3.5-turbo-0125" "/tmp/b"]).jobs :=
  history_accumulates_in_order standInProvider emptyFS
    [SessionOp.submit [1] "gpt-4o-mini-2024-07-18" "/tmp/a",
     SessionOp.submit [2] "gpt-3.5-turbo-0125" "/tmp/b"]
    [SessionOp.checkStatus "ftjob-1"] (by decide) (by decide)
